import Mathlib

/-!
Verification development for the particle field animator of the portfolio
repository (source: src/components/ui/particles.tsx).

The per-frame update of the animator is embedded shallowly over the real
numbers: each JavaScript float field becomes a real number, the per-particle
frame work (Euler integration, boundary bounce, pointer interaction) becomes
a pure function on a Particle structure, the animation-frame callback becomes
a function from the animator state to the new state together with the list of
draw calls it issues and whether the next frame is scheduled, and the pointer
event handlers become pure functions on the pointer state.
-/

/-- A particle, mirroring the Particle interface of the source:
fields x, y, size, vx, vy, color in that order. -/
@[ext]
structure Particle where
  x : ℝ
  y : ℝ
  size : ℝ
  vx : ℝ
  vy : ℝ
  color : String

/-- The pointer state (the mouse ref of the source): last observed
container-relative, center-origin coordinate, or the zero vector. -/
@[ext]
structure Mouse where
  x : ℝ
  y : ℝ

/-- The configuration props of the Particles component (className, which is
purely presentational and never read by the animation logic, is omitted). -/
structure ParticlesProps where
  quantity : ℕ
  staticity : ℝ
  ease : ℝ
  refresh : Bool

/-- The drawing surface: the canvas pixel dimensions. -/
structure Canvas where
  width : ℝ
  height : ℝ

/-- The mutable refs owned by one animator instance: the rendering context
(carried as presence only, the embedding does not model pixel state), the
canvas, the particle pool and the pointer state. -/
structure AnimState where
  context : Option Unit
  canvas : Option Canvas
  particles : List Particle
  mouse : Mouse

/-- One draw call issued to the rendering context during a frame. -/
inductive DrawCall where
  | clearRect (x y w h : ℝ)
  | circle (x y radius : ℝ) (color : String)

/-- Step 1 of the per-particle frame work (source lines 138 to 139):
particle.x += particle.vx; particle.y += particle.vy. -/
def moveStep (particle : Particle) : Particle :=
  { particle with x := particle.x + particle.vx, y := particle.y + particle.vy }

/-- Step 2 of the per-particle frame work (source lines 142 to 155): for each
axis, if the leading edge of the particle exceeds the half extent of the
canvas, invert that axis velocity component.  The position is not changed. -/
noncomputable def bounceStep (w h : ℝ) (particle : Particle) : Particle :=
  { particle with
    vx :=
      if particle.x + particle.size > w / 2 ∨ particle.x - particle.size < -w / 2 then
        -particle.vx
      else particle.vx,
    vy :=
      if particle.y + particle.size > h / 2 ∨ particle.y - particle.size < -h / 2 then
        -particle.vy
      else particle.vy }

/-- Step 3 of the per-particle frame work (source lines 158 to 169): the
pointer interaction.  The JavaScript guard `dx / distance || 0` yields 0
exactly when distance = 0 (then dx = dy = 0 and 0 / 0 is NaN, which `|| 0`
replaces by 0); it is embedded as an explicit test on the distance. -/
noncomputable def mouseStep (staticity : ℝ) (mouse : Mouse) (particle : Particle) : Particle :=
  let dx := mouse.x - particle.x
  let dy := mouse.y - particle.y
  let distance := Real.sqrt (dx * dx + dy * dy)
  let maxDistance : ℝ := 200
  if distance < maxDistance then
    let force := (maxDistance - distance) / maxDistance
    let directionX := if distance = 0 then 0 else dx / distance
    let directionY := if distance = 0 then 0 else dy / distance
    { particle with
      x := particle.x - directionX * force * staticity * 0.05,
      y := particle.y - directionY * force * staticity * 0.05 }
  else particle

/-- The whole per-particle frame work, in source order: integrate position,
bounce off the edges, then apply the pointer interaction. -/
noncomputable def frameStep (w h staticity : ℝ) (mouse : Mouse) (particle : Particle) : Particle :=
  mouseStep staticity mouse (bounceStep w h (moveStep particle))

/-- The integrate-and-bounce portion of the frame work (steps 1 and 2). -/
noncomputable def moveBounce (w h : ℝ) (particle : Particle) : Particle :=
  bounceStep w h (moveStep particle)

/-- initParticles (source lines 109 to 125): discard the pool, then, only if
the canvas ref is set, push `quantity` fresh particles with randomized fields
and a theme-resolved color.  The Math.random() calls are embedded as an
injected random source, consumed in call order. -/
noncomputable def initParticles (canvas : Option Canvas) (cfg : ParticlesProps)
    (theme : String) (rand : ℕ → ℝ) : List Particle :=
  match canvas with
  | none => []
  | some c =>
      (List.range cfg.quantity).map fun i =>
        { x := rand (6 * i) * c.width - c.width / 2
          y := rand (6 * i + 1) * c.height - c.height / 2
          size := rand (6 * i + 2) * 2 + 1
          vx := rand (6 * i + 3) * 2 - 1
          vy := rand (6 * i + 4) * 2 - 1
          color := if theme = "dark" then "rgba(200, 200, 200, 0.5)"
                   else "rgba(150, 50, 75, 0.3)" }

/-- The effect of calling initParticles on the animator state: the pool is
replaced wholesale (the previous particles are dropped first, unconditionally,
and regeneration happens only if the canvas ref is set). -/
noncomputable def initStep (cfg : ParticlesProps) (theme : String) (rand : ℕ → ℝ)
    (st : AnimState) : AnimState :=
  { st with particles := initParticles st.canvas cfg theme rand }

/-- One invocation of animate (source lines 127 to 188): when both the
rendering context and the canvas are present, clear the surface, update every
particle and draw it; otherwise do nothing.  The trailing
requestAnimationFrame(animate) is unconditional, which the Bool component
records. -/
noncomputable def animateFrame (cfg : ParticlesProps) (st : AnimState) :
    AnimState × List DrawCall × Bool :=
  match st.context, st.canvas with
  | some _, some c =>
      let ps := st.particles.map (frameStep c.width c.height cfg.staticity st.mouse)
      ({ st with particles := ps },
       DrawCall.clearRect 0 0 c.width c.height ::
         ps.map (fun q => DrawCall.circle (c.width / 2 + q.x) (c.height / 2 + q.y) q.size q.color),
       true)
  | _, _ => (st, [], true)

/-- onMouseMove (source lines 45 to 60): translate the client coordinate to
container-relative, center-origin space and store it only when it falls
strictly within the container bounds. -/
noncomputable def onMouseMove (rectLeft rectTop w h clientX clientY : ℝ)
    (mouse : Mouse) : Mouse :=
  let x := clientX - rectLeft - w / 2
  let y := clientY - rectTop - h / 2
  if x < w / 2 ∧ x > -w / 2 ∧ y < h / 2 ∧ y > -h / 2 then ⟨x, y⟩ else mouse

/-- onTouchMove (source lines 62 to 77): identical to onMouseMove, fed with
the coordinate of the first touch point. -/
noncomputable def onTouchMove (rectLeft rectTop w h touchX touchY : ℝ)
    (mouse : Mouse) : Mouse :=
  let x := touchX - rectLeft - w / 2
  let y := touchY - rectTop - h / 2
  if x < w / 2 ∧ x > -w / 2 ∧ y < h / 2 ∧ y > -h / 2 then ⟨x, y⟩ else mouse

/-- onMouseLeave (source lines 79 to 82), also installed for touchend:
reset the pointer state to the zero vector. -/
def onMouseLeave : Mouse := ⟨0, 0⟩

/-- The Euclidean distance from the pointer to a particle, exactly the
expression the source computes as `distance`. -/
noncomputable def pointerDistance (m : Mouse) (p : Particle) : ℝ :=
  Real.sqrt ((m.x - p.x) * (m.x - p.x) + (m.y - p.y) * (m.y - p.y))

/-- The magnitude of the positional displacement that one pointer-interaction
step applies to a particle. -/
noncomputable def mouseDispMag (s : ℝ) (m : Mouse) (p : Particle) : ℝ :=
  Real.sqrt (((mouseStep s m p).x - p.x) * ((mouseStep s m p).x - p.x) +
    ((mouseStep s m p).y - p.y) * ((mouseStep s m p).y - p.y))

/-! ### Helper lemmas -/

/-- Unfolding lemma for mouseStep, with the internal distance expression named
through pointerDistance. -/
lemma mouseStep_eq (s : ℝ) (m : Mouse) (p : Particle) :
    mouseStep s m p =
      if pointerDistance m p < 200 then
        { p with
          x := p.x -
            (if pointerDistance m p = 0 then 0 else (m.x - p.x) / pointerDistance m p) *
              ((200 - pointerDistance m p) / 200) * s * 0.05,
          y := p.y -
            (if pointerDistance m p = 0 then 0 else (m.y - p.y) / pointerDistance m p) *
              ((200 - pointerDistance m p) / 200) * s * 0.05 }
      else p := rfl

/-- Distance evaluation for a particle on the positive x axis with the pointer
at the origin. -/
lemma pointerDistance_eval (x sz vx vy : ℝ) (c : String) (hx : 0 ≤ x) :
    pointerDistance ⟨0, 0⟩ ⟨x, 0, sz, vx, vy, c⟩ = x := by
  unfold pointerDistance
  rw [show ((0:ℝ) - x) * (0 - x) + ((0:ℝ) - 0) * (0 - 0) = x * x by ring,
    Real.sqrt_mul_self hx]

/-! ### Claims about the pointer-interaction step (C5, C6) -/

/-- Claim C5: the pointer-interaction step is division safe.  When the
particle-to-pointer distance is 0 the direction components are treated as
zero, so the step is the identity on the particle (zero displacement); the
embedding over the reals is total by construction, so no particle state or
pointer state produces an undefined position. -/
theorem division_guard_zero_distance (s : ℝ) (m : Mouse) (p : Particle)
    (h : pointerDistance m p = 0) : mouseStep s m p = p := by
  rw [mouseStep_eq, h, if_pos (by norm_num : (0:ℝ) < 200), if_pos rfl]
  simp

theorem division_guard_zero_distance_witness :
    mouseStep 30 ⟨5, 7⟩ ⟨5, 7, 1, 2, 3, "p"⟩ = ⟨5, 7, 1, 2, 3, "p"⟩ :=
  division_guard_zero_distance 30 ⟨5, 7⟩ ⟨5, 7, 1, 2, 3, "p"⟩ (by
    unfold pointerDistance
    norm_num)

/-- Claim C6: the pointer-interaction step changes only the position of a
particle; its velocity components, radius and color are untouched, so the
nudge is a position displacement and never accumulates as momentum. -/
theorem mouse_step_frame_effect (s : ℝ) (m : Mouse) (p : Particle) :
    (mouseStep s m p).vx = p.vx ∧ (mouseStep s m p).vy = p.vy ∧
    (mouseStep s m p).size = p.size ∧ (mouseStep s m p).color = p.color := by
  rw [mouseStep_eq]
  split_ifs <;> exact ⟨rfl, rfl, rfl, rfl⟩

/-! ### Claims about the frame loop and the pool (C2, C7, C8, C10) -/

/-- Claim C2: a pool generated with the canvas present has exactly `quantity`
particles, and any number of frame updates leaves the particle count
unchanged (frames mutate particle fields but never add or remove particles);
the count changes only through explicit pool regeneration. -/
theorem pool_size_eq_quantity (c : Canvas) (cfg : ParticlesProps) (theme : String)
    (rand : ℕ → ℝ) (st : AnimState) (n : ℕ) :
    (initParticles (some c) cfg theme rand).length = cfg.quantity ∧
    ((fun s2 => (animateFrame cfg s2).1)^[n] st).particles.length =
      st.particles.length := by
  constructor
  · simp [initParticles]
  · induction n generalizing st with
    | zero => rfl
    | succ k ih =>
      rw [Function.iterate_succ_apply, ih]
      rcases st with ⟨ctx, cv, ps, m⟩
      cases ctx <;> cases cv <;> simp [animateFrame]

/-- Claim C7: when the rendering context or the canvas is unavailable, one
invocation of the frame callback mutates no particle state, issues no draw
call and still schedules the next frame; being a total function, it raises
nothing to the caller. -/
theorem frame_noop_on_missing_surface (cfg : ParticlesProps) (st : AnimState)
    (h : st.context = none ∨ st.canvas = none) :
    animateFrame cfg st = (st, [], true) := by
  rcases st with ⟨ctx, cv, ps, m⟩
  rcases h with h | h
  · cases ctx with
    | none => cases cv <;> rfl
    | some u => exact Option.noConfusion h
  · cases cv with
    | none => cases ctx <;> rfl
    | some c => exact Option.noConfusion h

theorem frame_noop_on_missing_surface_witness :
    animateFrame ⟨50, 30, 50, false⟩
        ⟨none, some ⟨400, 400⟩, [⟨1, 2, 3, 4, 5, "p"⟩], ⟨0, 0⟩⟩ =
      (⟨none, some ⟨400, 400⟩, [⟨1, 2, 3, 4, 5, "p"⟩], ⟨0, 0⟩⟩, [], true) :=
  frame_noop_on_missing_surface ⟨50, 30, 50, false⟩
    ⟨none, some ⟨400, 400⟩, [⟨1, 2, 3, 4, 5, "p"⟩], ⟨0, 0⟩⟩ (Or.inl rfl)

/-- Claim C8: the ease prop does not interfere with the per-frame update; two
frame updates that differ only in the value of ease produce identical
particle states and identical draw output. -/
theorem ease_noninterference (cfg : ParticlesProps) (e1 e2 : ℝ) (st : AnimState) :
    animateFrame { cfg with ease := e1 } st = animateFrame { cfg with ease := e2 } st := by
  rcases st with ⟨ctx, cv, ps, m⟩
  cases ctx <;> cases cv <;> rfl

/-- Claim C10: pool regeneration discards the old pool before checking that
the drawing surface exists; when the canvas is unavailable the pool becomes
the empty list whatever it held before, so regeneration is not a no-op on
failure. -/
theorem regen_discards_pool_without_canvas (cfg : ParticlesProps) (theme : String)
    (rand : ℕ → ℝ) (st : AnimState) (h : st.canvas = none) :
    (initStep cfg theme rand st).particles = [] := by
  rcases st with ⟨ctx, cv, ps, m⟩
  have hcv : cv = none := h
  subst hcv
  rfl

theorem regen_discards_pool_without_canvas_witness :
    (initStep ⟨50, 30, 50, false⟩ "dark" (fun _ => 0)
        ⟨some (), none, [⟨1, 2, 3, 4, 5, "p"⟩], ⟨0, 0⟩⟩).particles = [] :=
  regen_discards_pool_without_canvas ⟨50, 30, 50, false⟩ "dark" (fun _ => 0)
    ⟨some (), none, [⟨1, 2, 3, 4, 5, "p"⟩], ⟨0, 0⟩⟩ rfl

/-! ### Claim about pointer tracking (C9) -/

/-- The strict in-bounds test of the source, restated with absolute values. -/
lemma inside_iff (x y w h : ℝ) :
    (x < w / 2 ∧ x > -w / 2 ∧ y < h / 2 ∧ y > -h / 2) ↔ (|x| < w / 2 ∧ |y| < h / 2) := by
  rw [abs_lt, abs_lt]
  constructor
  · rintro ⟨a, b, c, d⟩
    exact ⟨⟨by linarith, a⟩, by linarith, c⟩
  · rintro ⟨⟨a, b⟩, c, d⟩
    exact ⟨b, by linarith, d, by linarith⟩

/-- Claim C9: a mouse-move or touch-move event stores the container-relative,
center-origin coordinate exactly when it is strictly within the container
bounds, leaves the pointer state unchanged otherwise, and a mouse-leave or
touch-end event resets the pointer state to the zero vector. -/
theorem pointer_update_contract (rectLeft rectTop w h cx cy tx ty : ℝ) (m : Mouse) :
    (|cx - rectLeft - w / 2| < w / 2 ∧ |cy - rectTop - h / 2| < h / 2 →
      onMouseMove rectLeft rectTop w h cx cy m =
        ⟨cx - rectLeft - w / 2, cy - rectTop - h / 2⟩) ∧
    (¬(|cx - rectLeft - w / 2| < w / 2 ∧ |cy - rectTop - h / 2| < h / 2) →
      onMouseMove rectLeft rectTop w h cx cy m = m) ∧
    (|tx - rectLeft - w / 2| < w / 2 ∧ |ty - rectTop - h / 2| < h / 2 →
      onTouchMove rectLeft rectTop w h tx ty m =
        ⟨tx - rectLeft - w / 2, ty - rectTop - h / 2⟩) ∧
    (¬(|tx - rectLeft - w / 2| < w / 2 ∧ |ty - rectTop - h / 2| < h / 2) →
      onTouchMove rectLeft rectTop w h tx ty m = m) ∧
    onMouseLeave = ⟨0, 0⟩ := by
  refine ⟨fun hin => ?_, fun hout => ?_, fun hin => ?_, fun hout => ?_, rfl⟩
  · unfold onMouseMove
    rw [if_pos ((inside_iff _ _ w h).mpr hin)]
  · unfold onMouseMove
    rw [if_neg (fun hc => hout ((inside_iff _ _ w h).mp hc))]
  · unfold onTouchMove
    rw [if_pos ((inside_iff _ _ w h).mpr hin)]
  · unfold onTouchMove
    rw [if_neg (fun hc => hout ((inside_iff _ _ w h).mp hc))]

theorem pointer_update_contract_witness :
    onMouseMove 0 0 100 100 60 70 ⟨1, 2⟩ = ⟨60 - 0 - 100 / 2, 70 - 0 - 100 / 2⟩ ∧
    onTouchMove 0 0 100 100 300 70 ⟨1, 2⟩ = ⟨1, 2⟩ ∧
    onMouseLeave = ⟨0, 0⟩ := by
  have t := pointer_update_contract 0 0 100 100 60 70 300 70 ⟨1, 2⟩
  refine ⟨t.1 ⟨abs_lt.mpr (by norm_num), abs_lt.mpr (by norm_num)⟩, t.2.2.2.1 ?_, t.2.2.2.2⟩
  rintro ⟨h1, -⟩
  rw [abs_lt] at h1
  obtain ⟨-, h2⟩ := h1
  norm_num at h2

/-! ### The boundary-bounce invariant (C1) -/

/-- One-axis invariant for the integrate-and-bounce dynamics: the coordinate
is within the bound M, and whenever it is already past the bounce threshold T
the pending move brings it back within M. -/
def Inv1 (T M x u : ℝ) : Prop := |x| ≤ M ∧ (T < |x| → |x + u| ≤ M)

lemma Inv1_step (T M x u : ℝ) (hM : T + |u| ≤ M) (h : Inv1 T M x u) :
    Inv1 T M (x + u) (if T < |x + u| then -u else u) := by
  obtain ⟨h1, h2⟩ := h
  refine ⟨?_, ?_⟩
  · rcases le_or_lt |x| T with hx | hx
    · have hadd := abs_add x u
      linarith
    · exact h2 hx
  · intro hxu
    rw [if_pos hxu]
    have hxx : x + u + -u = x := by ring
    rw [hxx]
    exact h1

/-- Field-level description of one integrate-and-bounce step: the position
advances by the velocity, the radius is untouched, and each axis velocity is
inverted exactly when the moved coordinate is past the bounce threshold
half-extent minus radius (no position clamping). -/
lemma moveBounce_fields (w h : ℝ) (p : Particle) :
    (moveBounce w h p).x = p.x + p.vx ∧
    (moveBounce w h p).y = p.y + p.vy ∧
    (moveBounce w h p).size = p.size ∧
    (moveBounce w h p).vx = (if w / 2 - p.size < |p.x + p.vx| then -p.vx else p.vx) ∧
    (moveBounce w h p).vy = (if h / 2 - p.size < |p.y + p.vy| then -p.vy else p.vy) := by
  refine ⟨rfl, rfl, rfl, ?_, ?_⟩
  · show (if p.x + p.vx + p.size > w / 2 ∨ p.x + p.vx - p.size < -w / 2 then -p.vx else p.vx) = _
    refine if_congr ?_ rfl rfl
    rw [lt_abs]
    constructor
    · rintro (h1 | h1)
      · left; linarith
      · right; linarith
    · rintro (h1 | h1)
      · left; linarith
      · right; linarith
  · show (if p.y + p.vy + p.size > h / 2 ∨ p.y + p.vy - p.size < -h / 2 then -p.vy else p.vy) = _
    refine if_congr ?_ rfl rfl
    rw [lt_abs]
    constructor
    · rintro (h1 | h1)
      · left; linarith
      · right; linarith
    · rintro (h1 | h1)
      · left; linarith
      · right; linarith

lemma moveBounce_iter (w h : ℝ) (p : Particle) (Mx My : ℝ)
    (hMx : w / 2 - p.size + |p.vx| ≤ Mx) (hMy : h / 2 - p.size + |p.vy| ≤ My)
    (hx : Inv1 (w / 2 - p.size) Mx p.x p.vx) (hy : Inv1 (h / 2 - p.size) My p.y p.vy) :
    ∀ n : ℕ,
      Inv1 (w / 2 - p.size) Mx ((moveBounce w h)^[n] p).x ((moveBounce w h)^[n] p).vx ∧
      Inv1 (h / 2 - p.size) My ((moveBounce w h)^[n] p).y ((moveBounce w h)^[n] p).vy ∧
      ((moveBounce w h)^[n] p).size = p.size ∧
      |((moveBounce w h)^[n] p).vx| = |p.vx| ∧
      |((moveBounce w h)^[n] p).vy| = |p.vy| := by
  intro n
  induction n with
  | zero => exact ⟨hx, hy, rfl, rfl, rfl⟩
  | succ k ih =>
    rw [Function.iterate_succ_apply']
    set q := (moveBounce w h)^[k] p with hq
    obtain ⟨ihx, ihy, ihs, ihvx, ihvy⟩ := ih
    obtain ⟨ex, ey, es, evx, evy⟩ := moveBounce_fields w h q
    rw [ex, ey, es, evx, evy, ihs]
    refine ⟨Inv1_step _ _ _ _ (by rw [ihvx]; exact hMx) ihx,
            Inv1_step _ _ _ _ (by rw [ihvy]; exact hMy) ihy, rfl, ?_, ?_⟩
    · split
      · rw [abs_neg]; exact ihvx
      · exact ihvx
    · split
      · rw [abs_neg]; exact ihvy
      · exact ihvy

/-- Claim C1, amended: the boundary-bounce invariant holds for the
integrate-and-bounce portion of the frame update (equivalently, for frames in
which the pointer displacement is zero): a particle of nonnegative radius
that starts with |position| at most half-extent plus radius keeps, after any
number of integrate-and-bounce steps, |position| at most half-extent plus
radius plus one frame of movement |velocity|, the bounce being implemented by
velocity inversion with no position clamping.  The pointer-interaction step
breaks the claim as stated, see the counterexample. -/
theorem boundary_bounce_invariant_amended (w h : ℝ) (p : Particle)
    (hsz : 0 ≤ p.size) (hx0 : |p.x| ≤ w / 2 + p.size) (hy0 : |p.y| ≤ h / 2 + p.size)
    (n : ℕ) :
    |((moveBounce w h)^[n] p).x| ≤ w / 2 + p.size + |p.vx| ∧
    |((moveBounce w h)^[n] p).y| ≤ h / 2 + p.size + |p.vy| := by
  have hvx := abs_nonneg p.vx
  have hvy := abs_nonneg p.vy
  have hMx : w / 2 - p.size + |p.vx| ≤ w / 2 + p.size + |p.vx| := by linarith
  have hMy : h / 2 - p.size + |p.vy| ≤ h / 2 + p.size + |p.vy| := by linarith
  have hx : Inv1 (w / 2 - p.size) (w / 2 + p.size + |p.vx|) p.x p.vx := by
    refine ⟨by linarith, fun _ => ?_⟩
    have hadd := abs_add p.x p.vx
    linarith
  have hy : Inv1 (h / 2 - p.size) (h / 2 + p.size + |p.vy|) p.y p.vy := by
    refine ⟨by linarith, fun _ => ?_⟩
    have hadd := abs_add p.y p.vy
    linarith
  obtain ⟨a, b, -, -, -⟩ := moveBounce_iter w h p _ _ hMx hMy hx hy n
  exact ⟨a.1, b.1⟩

theorem boundary_bounce_invariant_witness :
    |((moveBounce 10 10)^[2] ⟨0, 0, 1, 1, 1, "p"⟩).x| ≤ 10 / 2 + 1 + |(1:ℝ)| ∧
    |((moveBounce 10 10)^[2] ⟨0, 0, 1, 1, 1, "p"⟩).y| ≤ 10 / 2 + 1 + |(1:ℝ)| :=
  boundary_bounce_invariant_amended 10 10 ⟨0, 0, 1, 1, 1, "p"⟩
    (by norm_num) (by rw [show |(0:ℝ)| = 0 from abs_zero]; norm_num)
    (by rw [show |(0:ℝ)| = 0 from abs_zero]; norm_num) 2

/-- Evaluation of one full frame step for a particle at rest on the positive
x axis with the pointer state at the zero vector: the bounce inverts a zero
velocity (a no-op) and the pointer interaction pushes the particle away from
the container center by force times staticity times 0.05. -/
lemma frameStep_origin_xaxis (w h s x sz : ℝ) (c : String) (h0 : 0 < x) (h200 : x < 200) :
    frameStep w h s ⟨0, 0⟩ ⟨x, 0, sz, 0, 0, c⟩ =
      ⟨x + (200 - x) / 200 * s * 0.05, 0, sz, 0, 0, c⟩ := by
  have hmb : bounceStep w h (moveStep ⟨x, 0, sz, 0, 0, c⟩) = ⟨x, 0, sz, 0, 0, c⟩ := by
    unfold bounceStep moveStep
    simp
  show mouseStep s ⟨0, 0⟩ (bounceStep w h (moveStep ⟨x, 0, sz, 0, 0, c⟩)) = _
  rw [hmb, mouseStep_eq, pointerDistance_eval x sz 0 0 c h0.le, if_pos h200,
    if_neg h0.ne', if_neg h0.ne']
  apply Particle.ext
  · show x - (0 - x) / x * ((200 - x) / 200) * s * 0.05 = x + (200 - x) / 200 * s * 0.05
    field_simp
    ring
  · show 0 - (0 - 0) / x * ((200 - x) / 200) * s * 0.05 = (0:ℝ)
    norm_num
  · rfl
  · rfl
  · rfl
  · rfl

/-- Claim C1, counterexample: with the pointer state at the zero vector (the
reset state), a container of 100 by 100, and a particle of radius 1 at rest
at x = 49 (inside the claimed bound half-width + radius = 51), four frame
updates push the particle to x = 53.479..., beyond half-width + radius +
|velocity| even with an extra frame of maximal pointer displacement
(staticity * 0.05 = 1.5) allowed: the pointer interaction applies no position
clamping and accumulates across frames, so the claimed invariant fails for
the full frame update. -/
theorem boundary_bounce_invariant_counterexample :
    100 / 2 + 1 + |(0:ℝ)| + 3 / 2 <
      |(frameStep 100 100 30 ⟨0, 0⟩ (frameStep 100 100 30 ⟨0, 0⟩
        (frameStep 100 100 30 ⟨0, 0⟩ (frameStep 100 100 30 ⟨0, 0⟩
          ⟨49, 0, 1, 0, 0, "p"⟩)))).x| := by
  have e1 : frameStep 100 100 30 ⟨0, 0⟩ ⟨49, 0, 1, 0, 0, "p"⟩ =
      ⟨20053 / 400, 0, 1, 0, 0, "p"⟩ := by
    rw [frameStep_origin_xaxis 100 100 30 49 1 "p" (by norm_num) (by norm_num)]
    norm_num [Particle.mk.injEq]
  have e2 : frameStep 100 100 30 ⟨0, 0⟩ (⟨20053 / 400, 0, 1, 0, 0, "p"⟩ : Particle) =
      ⟨8201041 / 160000, 0, 1, 0, 0, "p"⟩ := by
    rw [frameStep_origin_xaxis 100 100 30 (20053 / 400) 1 "p" (by norm_num) (by norm_num)]
    norm_num [Particle.mk.injEq]
  have e3 : frameStep 100 100 30 ⟨0, 0⟩ (⟨8201041 / 160000, 0, 1, 0, 0, "p"⟩ : Particle) =
      ⟨3351813277 / 64000000, 0, 1, 0, 0, "p"⟩ := by
    rw [frameStep_origin_xaxis 100 100 30 (8201041 / 160000) 1 "p" (by norm_num) (by norm_num)]
    norm_num [Particle.mk.injEq]
  have e4 : frameStep 100 100 30 ⟨0, 0⟩ (⟨3351813277 / 64000000, 0, 1, 0, 0, "p"⟩ : Particle) =
      ⟨1369069870969 / 25600000000, 0, 1, 0, 0, "p"⟩ := by
    rw [frameStep_origin_xaxis 100 100 30 (3351813277 / 64000000) 1 "p" (by norm_num)
      (by norm_num)]
    norm_num [Particle.mk.injEq]
  rw [e1, e2, e3, e4]
  have hx4 : (⟨1369069870969 / 25600000000, 0, 1, 0, 0, "p"⟩ : Particle).x =
      1369069870969 / 25600000000 := rfl
  rw [hx4, abs_zero, abs_of_pos (by norm_num : (0:ℝ) < 1369069870969 / 25600000000)]
  norm_num

/-! ### The zero-pointer frame effect (C3) -/

/-- Claim C3, amended: with the pointer state at the zero vector, a frame
update changes a particle position by exactly its velocity provided the
post-integration position is at least the interaction radius (200) away from
the container center; particles nearer than 200 to the center still receive
the repulsion of a pointer sitting at the center, because the code does not
distinguish the reset state from a pointer at the center. -/
theorem zero_pointer_force_amended (w h s : ℝ) (p : Particle)
    (hfar : 200 ≤ pointerDistance ⟨0, 0⟩ (moveStep p)) :
    (frameStep w h s ⟨0, 0⟩ p).x = p.x + p.vx ∧
    (frameStep w h s ⟨0, 0⟩ p).y = p.y + p.vy := by
  have hfar2 : ¬(pointerDistance ⟨0, 0⟩ (bounceStep w h (moveStep p)) < 200) :=
    not_lt.mpr hfar
  show (mouseStep s ⟨0, 0⟩ (bounceStep w h (moveStep p))).x = p.x + p.vx ∧
    (mouseStep s ⟨0, 0⟩ (bounceStep w h (moveStep p))).y = p.y + p.vy
  rw [mouseStep_eq, if_neg hfar2]
  exact ⟨rfl, rfl⟩

/-- Claim C3, counterexample: pointer state (0, 0) (the reset state), canvas
400 by 400, particle at rest at (10, 0): the frame update moves the particle
to x = 11.425, not x + vx = 10, so the zero pointer state does not mean zero
force for every particle. -/
theorem zero_pointer_force_counterexample :
    (frameStep 400 400 30 ⟨0, 0⟩ ⟨10, 0, 1, 0, 0, "p"⟩).x ≠
      (⟨10, 0, 1, 0, 0, "p"⟩ : Particle).x + (⟨10, 0, 1, 0, 0, "p"⟩ : Particle).vx := by
  rw [frameStep_origin_xaxis 400 400 30 10 1 "p" (by norm_num) (by norm_num)]
  show (10:ℝ) + (200 - 10) / 200 * 30 * 0.05 ≠ 10 + 0
  norm_num

theorem zero_pointer_force_witness :
    (frameStep 100 100 30 ⟨0, 0⟩ ⟨300, 0, 1, 0, 0, "p"⟩).x = 300 + 0 ∧
    (frameStep 100 100 30 ⟨0, 0⟩ ⟨300, 0, 1, 0, 0, "p"⟩).y = 0 + 0 :=
  zero_pointer_force_amended 100 100 30 ⟨300, 0, 1, 0, 0, "p"⟩ (by
    have hm : moveStep ⟨300, 0, 1, 0, 0, "p"⟩ = ⟨300, 0, 1, 0, 0, "p"⟩ := by
      unfold moveStep
      simp
    rw [hm, pointerDistance_eval 300 1 0 0 "p" (by norm_num)]
    norm_num)

/-! ### The pointer-force falloff (C4) -/

/-- Closed form of the pointer-displacement magnitude: linear falloff
(200 - d) / 200 * staticity * 0.05 for distances strictly between 0 and 200,
and zero both at distance zero (the division guard zeroes the direction) and
at or beyond the interaction radius. -/
lemma mouseDispMag_formula (s : ℝ) (m : Mouse) (p : Particle) (hs : 0 ≤ s) :
    mouseDispMag s m p =
      if pointerDistance m p < 200 ∧ pointerDistance m p ≠ 0 then
        (200 - pointerDistance m p) / 200 * s * 0.05
      else 0 := by
  unfold mouseDispMag
  rw [mouseStep_eq]
  by_cases h200 : pointerDistance m p < 200
  · by_cases h0 : pointerDistance m p = 0
    · rw [if_pos h200, if_pos h0, if_pos h0, if_neg (fun hc => hc.2 h0)]
      norm_num [Real.sqrt_zero]
    · rw [if_pos h200, if_neg h0, if_neg h0, if_pos ⟨h200, h0⟩]
      set d := pointerDistance m p with hd
      have hd0 : 0 ≤ (m.x - p.x) * (m.x - p.x) + (m.y - p.y) * (m.y - p.y) :=
        add_nonneg (mul_self_nonneg _) (mul_self_nonneg _)
      have hdd : d * d = (m.x - p.x) * (m.x - p.x) + (m.y - p.y) * (m.y - p.y) :=
        Real.mul_self_sqrt hd0
      have hK : 0 ≤ (200 - d) / 200 * s * 0.05 :=
        mul_nonneg (mul_nonneg (div_nonneg (by linarith) (by norm_num)) hs) (by norm_num)
      show Real.sqrt
          ((p.x - (m.x - p.x) / d * ((200 - d) / 200) * s * 0.05 - p.x) *
            (p.x - (m.x - p.x) / d * ((200 - d) / 200) * s * 0.05 - p.x) +
          (p.y - (m.y - p.y) / d * ((200 - d) / 200) * s * 0.05 - p.y) *
            (p.y - (m.y - p.y) / d * ((200 - d) / 200) * s * 0.05 - p.y)) =
        (200 - d) / 200 * s * 0.05
      have expand :
          (p.x - (m.x - p.x) / d * ((200 - d) / 200) * s * 0.05 - p.x) *
            (p.x - (m.x - p.x) / d * ((200 - d) / 200) * s * 0.05 - p.x) +
          (p.y - (m.y - p.y) / d * ((200 - d) / 200) * s * 0.05 - p.y) *
            (p.y - (m.y - p.y) / d * ((200 - d) / 200) * s * 0.05 - p.y) =
          ((m.x - p.x) * (m.x - p.x) + (m.y - p.y) * (m.y - p.y)) *
            ((200 - d) / 200 * s * 0.05 * ((200 - d) / 200 * s * 0.05)) / (d * d) := by
        field_simp
        ring
      rw [expand, ← hdd, mul_comm (d * d), mul_div_assoc,
        div_self (mul_ne_zero h0 h0), mul_one]
      exact Real.sqrt_mul_self hK
  · rw [if_neg h200, if_neg (fun hc => h200 hc.1)]
    norm_num [Real.sqrt_zero]

/-- Claim C4, amended: the pointer-displacement magnitude is strictly
decreasing in the particle-to-pointer distance on the open interval
0 < d < 200, is zero for every d at or beyond the interaction radius 200, and
is also zero at d = 0 (the division guard): the supremum staticity * 0.05 is
approached as d tends to 0 but not attained, so the magnitude is neither
strictly decreasing on all of 0 <= d < 200 nor maximal at d = 0 as the claim
states. -/
theorem pointer_force_falloff (s : ℝ) (m : Mouse) (p q r z : Particle) (hs : 0 < s) :
    (0 < pointerDistance m p → pointerDistance m p < pointerDistance m q →
      pointerDistance m q < 200 → mouseDispMag s m q < mouseDispMag s m p) ∧
    (200 ≤ pointerDistance m r → mouseDispMag s m r = 0) ∧
    (pointerDistance m z = 0 → mouseDispMag s m z = 0) := by
  refine ⟨fun h1 h2 h3 => ?_, fun h4 => ?_, fun h5 => ?_⟩
  · rw [mouseDispMag_formula s m p hs.le, mouseDispMag_formula s m q hs.le,
      if_pos ⟨h3, (h1.trans h2).ne'⟩, if_pos ⟨by linarith, h1.ne'⟩]
    have key : (200 - pointerDistance m q) / 200 < (200 - pointerDistance m p) / 200 :=
      (div_lt_div_iff_of_pos_right (by norm_num)).mpr (by linarith)
    exact mul_lt_mul_of_pos_right (mul_lt_mul_of_pos_right key hs) (by norm_num)
  · rw [mouseDispMag_formula s m r hs.le, if_neg]
    rintro ⟨hc, -⟩
    linarith
  · rw [mouseDispMag_formula s m z hs.le, if_neg]
    rintro ⟨-, hc⟩
    exact hc h5

/-- Claim C4, counterexample: with staticity 30 and the pointer at the
origin, a particle at distance 0 receives displacement magnitude 0 while a
particle at distance 100 receives 0.75, so on 0 <= d < 200 the magnitude is
not strictly decreasing and its maximum is not at d = 0. -/
theorem pointer_force_falloff_counterexample :
    mouseDispMag 30 ⟨0, 0⟩ ⟨0, 0, 1, 0, 0, "p"⟩ <
      mouseDispMag 30 ⟨0, 0⟩ ⟨100, 0, 1, 0, 0, "p"⟩ := by
  rw [mouseDispMag_formula 30 ⟨0, 0⟩ ⟨0, 0, 1, 0, 0, "p"⟩ (by norm_num),
    mouseDispMag_formula 30 ⟨0, 0⟩ ⟨100, 0, 1, 0, 0, "p"⟩ (by norm_num),
    pointerDistance_eval 0 1 0 0 "p" le_rfl,
    pointerDistance_eval 100 1 0 0 "p" (by norm_num)]
  norm_num

theorem pointer_force_falloff_witness :
    mouseDispMag 30 ⟨0, 0⟩ ⟨150, 0, 1, 0, 0, "p"⟩ <
      mouseDispMag 30 ⟨0, 0⟩ ⟨100, 0, 1, 0, 0, "p"⟩ ∧
    mouseDispMag 30 ⟨0, 0⟩ ⟨250, 0, 1, 0, 0, "p"⟩ = 0 ∧
    mouseDispMag 30 ⟨0, 0⟩ ⟨0, 0, 1, 0, 0, "p"⟩ = 0 := by
  have t := pointer_force_falloff 30 ⟨0, 0⟩ ⟨100, 0, 1, 0, 0, "p"⟩
    ⟨150, 0, 1, 0, 0, "p"⟩ ⟨250, 0, 1, 0, 0, "p"⟩ ⟨0, 0, 1, 0, 0, "p"⟩ (by norm_num)
  refine ⟨t.1 ?_ ?_ ?_, t.2.1 ?_, t.2.2 ?_⟩
  · rw [pointerDistance_eval 100 1 0 0 "p" (by norm_num)]
    norm_num
  · rw [pointerDistance_eval 100 1 0 0 "p" (by norm_num),
      pointerDistance_eval 150 1 0 0 "p" (by norm_num)]
    norm_num
  · rw [pointerDistance_eval 150 1 0 0 "p" (by norm_num)]
    norm_num
  · rw [pointerDistance_eval 250 1 0 0 "p" (by norm_num)]
    norm_num
  · exact pointerDistance_eval 0 1 0 0 "p" le_rfl
